import Mathlib

/-!
Verification of the Synse Python client (vapor-ware/synse-client-python).

A shallow embedding of the parts of the client relevant to the specified
claims: the error taxonomy and HTTP error classifier (synse/errors.py),
the WebSocket response processor (synse/utils.py), the WebSocket and HTTP
client request paths (synse/client.py), and the typed response mapper
(synse/models.py).

JSON values are modelled by the inductive `JVal`; the external `json`
module's decode step is a parameter or a pre-decoded payload at each
boundary where the source calls it, and the external `iso8601` parser is
modelled as tagging its input string.
-/

/-- A JSON-shaped Python value.  `date` models a `datetime.datetime`
produced by `iso8601.parse_date` on the given RFC3339 string (the external
parser is modelled as tagging its input). -/
inductive JVal where
  | null : JVal
  | bool : Bool → JVal
  | num : Int → JVal
  | str : String → JVal
  | arr : List JVal → JVal
  | obj : List (String × JVal) → JVal
  | date : String → JVal

-- Structural boolean equality for `JVal`: the nested `List` fields keep
-- the automatic `DecidableEq` derivation from applying, and the mutual
-- structural recursion keeps the instance kernel-reducible.
mutual
/-- Structural boolean equality on `JVal`. -/
def JVal.beq : JVal → JVal → Bool
  | .null, .null => true
  | .bool a, .bool b => a == b
  | .num a, .num b => a == b
  | .str a, .str b => a == b
  | .arr a, .arr b => JVal.beqArr a b
  | .obj a, .obj b => JVal.beqObj a b
  | .date a, .date b => a == b
  | _, _ => false
def JVal.beqArr : List JVal → List JVal → Bool
  | [], [] => true
  | a :: as, b :: bs => JVal.beq a b && JVal.beqArr as bs
  | _, _ => false
def JVal.beqObj : List (String × JVal) → List (String × JVal) → Bool
  | [], [] => true
  | (k1, v1) :: as, (k2, v2) :: bs => k1 == k2 && JVal.beq v1 v2 && JVal.beqObj as bs
  | _, _ => false
end

mutual
def JVal.eq_of_beq : ∀ a b, JVal.beq a b = true → a = b
  | .null, .null, _ => rfl
  | .null, .bool _, h => by simp [JVal.beq] at h
  | .null, .num _, h => by simp [JVal.beq] at h
  | .null, .str _, h => by simp [JVal.beq] at h
  | .null, .arr _, h => by simp [JVal.beq] at h
  | .null, .obj _, h => by simp [JVal.beq] at h
  | .null, .date _, h => by simp [JVal.beq] at h
  | .bool _, .null, h => by simp [JVal.beq] at h
  | .bool x, .bool y, h => by simp [JVal.beq] at h; simp [h]
  | .bool _, .num _, h => by simp [JVal.beq] at h
  | .bool _, .str _, h => by simp [JVal.beq] at h
  | .bool _, .arr _, h => by simp [JVal.beq] at h
  | .bool _, .obj _, h => by simp [JVal.beq] at h
  | .bool _, .date _, h => by simp [JVal.beq] at h
  | .num _, .null, h => by simp [JVal.beq] at h
  | .num _, .bool _, h => by simp [JVal.beq] at h
  | .num x, .num y, h => by simp [JVal.beq] at h; simp [h]
  | .num _, .str _, h => by simp [JVal.beq] at h
  | .num _, .arr _, h => by simp [JVal.beq] at h
  | .num _, .obj _, h => by simp [JVal.beq] at h
  | .num _, .date _, h => by simp [JVal.beq] at h
  | .str _, .null, h => by simp [JVal.beq] at h
  | .str _, .bool _, h => by simp [JVal.beq] at h
  | .str _, .num _, h => by simp [JVal.beq] at h
  | .str x, .str y, h => by simp [JVal.beq] at h; simp [h]
  | .str _, .arr _, h => by simp [JVal.beq] at h
  | .str _, .obj _, h => by simp [JVal.beq] at h
  | .str _, .date _, h => by simp [JVal.beq] at h
  | .arr _, .null, h => by simp [JVal.beq] at h
  | .arr _, .bool _, h => by simp [JVal.beq] at h
  | .arr _, .num _, h => by simp [JVal.beq] at h
  | .arr _, .str _, h => by simp [JVal.beq] at h
  | .arr x, .arr y, h => by
    simp only [JVal.beq] at h
    rw [JVal.eqArr_of_beq x y h]
  | .arr _, .obj _, h => by simp [JVal.beq] at h
  | .arr _, .date _, h => by simp [JVal.beq] at h
  | .obj _, .null, h => by simp [JVal.beq] at h
  | .obj _, .bool _, h => by simp [JVal.beq] at h
  | .obj _, .num _, h => by simp [JVal.beq] at h
  | .obj _, .str _, h => by simp [JVal.beq] at h
  | .obj _, .arr _, h => by simp [JVal.beq] at h
  | .obj x, .obj y, h => by
    simp only [JVal.beq] at h
    rw [JVal.eqObj_of_beq x y h]
  | .obj _, .date _, h => by simp [JVal.beq] at h
  | .date _, .null, h => by simp [JVal.beq] at h
  | .date _, .bool _, h => by simp [JVal.beq] at h
  | .date _, .num _, h => by simp [JVal.beq] at h
  | .date _, .str _, h => by simp [JVal.beq] at h
  | .date _, .arr _, h => by simp [JVal.beq] at h
  | .date _, .obj _, h => by simp [JVal.beq] at h
  | .date x, .date y, h => by simp [JVal.beq] at h; simp [h]
def JVal.eqArr_of_beq : ∀ a b, JVal.beqArr a b = true → a = b
  | [], [], _ => rfl
  | [], _ :: _, h => by simp [JVal.beqArr] at h
  | _ :: _, [], h => by simp [JVal.beqArr] at h
  | a :: as, b :: bs, h => by
    simp only [JVal.beqArr, Bool.and_eq_true] at h
    rw [JVal.eq_of_beq a b h.1, JVal.eqArr_of_beq as bs h.2]
def JVal.eqObj_of_beq : ∀ a b, JVal.beqObj a b = true → a = b
  | [], [], _ => rfl
  | [], _ :: _, h => by simp [JVal.beqObj] at h
  | _ :: _, [], h => by simp [JVal.beqObj] at h
  | (k1, v1) :: as, (k2, v2) :: bs, h => by
    simp only [JVal.beqObj, Bool.and_eq_true, beq_iff_eq] at h
    rw [h.1.1, JVal.eq_of_beq v1 v2 h.1.2, JVal.eqObj_of_beq as bs h.2]
end

mutual
def JVal.beq_refl : ∀ a, JVal.beq a a = true
  | .null => rfl
  | .bool b => by simp [JVal.beq]
  | .num n => by simp [JVal.beq]
  | .str s => by simp [JVal.beq]
  | .arr a => by simp only [JVal.beq]; exact JVal.beqArr_refl a
  | .obj a => by simp only [JVal.beq]; exact JVal.beqObj_refl a
  | .date s => by simp [JVal.beq]
def JVal.beqArr_refl : ∀ a, JVal.beqArr a a = true
  | [] => rfl
  | a :: as => by simp [JVal.beqArr, JVal.beq_refl a, JVal.beqArr_refl as]
def JVal.beqObj_refl : ∀ a, JVal.beqObj a a = true
  | [] => rfl
  | (k, v) :: as => by simp [JVal.beqObj, JVal.beq_refl v, JVal.beqObj_refl as]
end

instance : DecidableEq JVal := fun a b =>
  decidable_of_iff (JVal.beq a b = true)
    ⟨JVal.eq_of_beq a b, fun h => h ▸ JVal.beq_refl a⟩

/-- Python truthiness for the values modelled by `JVal` (used for
`if data:` in the client). -/
def JVal.truthy : JVal → Bool
  | .null => false
  | .bool b => b
  | .num n => n != 0
  | .str s => s != ""
  | .arr l => !l.isEmpty
  | .obj l => !l.isEmpty
  | .date _ => true

/-- First-match association-list lookup; Python dicts have unique keys, so
this is `dict.__getitem__` / `dict.get` on a key list. -/
def alookup : List (String × JVal) → String → Option JVal
  | [], _ => none
  | (k, v) :: rest, key => if k = key then some v else alookup rest key

/-- `value[key]` / `value.get(key)` for a decoded JSON value; `none` when
the key is absent or the value is not an object (Python raises
KeyError/TypeError there, which the callers below surface). -/
def jget : JVal → String → Option JVal
  | .obj kvs, key => alookup kvs key
  | _, _ => none

/-- Python `str()` of a decoded value, as used in f-string interpolation
of error messages.  Container rendering is approximate (it only feeds
human-readable messages). -/
def pyStr : JVal → String
  | .null => "None"
  | .bool true => "True"
  | .bool false => "False"
  | .num n => toString n
  | .str s => s
  | .arr _ => "[...]"
  | .obj _ => "\x7b...\x7d"
  | .date s => s

/-- The error kinds of synse/errors.py: `InvalidInput` (400), `NotFound`
(404), `ServerError` (500) and the base `SynseError`. -/
inductive SynseErrKind where
  | invalidInput
  | notFound
  | serverError
  | synseError
  deriving DecidableEq

/-- A raised Python exception, as observed by a caller of the client.
`synse k m` is a `SynseError` subclass of kind `k` constructed with
argument `m`; `runtimeError` is Python's `RuntimeError`; `lookupError`
models the KeyError/TypeError raised by a subscript on ill-shaped data;
`transport` is a native transport-layer exception (e.g. aiohttp's
`ConnectionResetError`) that is not a `SynseError`. -/
inductive PyErr where
  | synse : SynseErrKind → JVal → PyErr
  | runtimeError : String → PyErr
  | lookupError : String → PyErr
  | transport : String → PyErr
  deriving DecidableEq

/-- synse/errors.py `code_to_err`: the fixed status-code table. -/
def code_to_err (status : Nat) : Option SynseErrKind :=
  if status = 400 then some .invalidInput
  else if status = 404 then some .notFound
  else if status = 500 then some .serverError
  else none

instance {e a : Type} [DecidableEq e] [DecidableEq a] : DecidableEq (Except e a) := fun x y =>
  match x, y with
  | .ok u, .ok v =>
    if h : u = v then isTrue (by rw [h]) else isFalse (fun hh => h (Except.ok.inj hh))
  | .error u, .error v =>
    if h : u = v then isTrue (by rw [h]) else isFalse (fun hh => h (Except.error.inj hh))
  | .ok _, .error _ => isFalse (fun hh => Except.noConfusion hh)
  | .error _, .ok _ => isFalse (fun hh => Except.noConfusion hh)

/-- An aiohttp `ClientResponse` as consumed by `wrap_and_raise_for_error`:
its status code, the result of `await response.text()` (`Except` models a
raised exception), and `response.reason`. -/
structure HTTPResponse where
  status : Nat
  textResult : Except String String
  reason : String
  deriving DecidableEq

/-- The body string `wrap_and_raise_for_error` ends up classifying: the
`body` argument when given, otherwise `await response.text()`, falling
back to `response.reason` when `text()` raises. -/
def effectiveBody (response : HTTPResponse) (body : Option String) : String :=
  match body with
  | some b => b
  | none =>
    match response.textResult with
    | .ok t => t
    | .error _ => response.reason

/-- Result of `wrap_and_raise_for_error`: the outcome (normal return or a
raised exception) plus whether `await response.text()` was performed
(i.e. whether the response body was consumed by the classifier). -/
structure WrapResult where
  outcome : Except PyErr Unit
  textConsumed : Bool
  deriving DecidableEq

/-- synse/errors.py `wrap_and_raise_for_error(response, body=None)`.

`jsonLoads` is the external `json.loads`.  The aiohttp primitive
`response.raise_for_status()` (external dependency) raises
`ClientResponseError` exactly when `status >= 400` (aiohttp defines
`ok` as `status < 400`), so nothing is raised below 400.  On a mapped
status the body is parsed and `data.get('context')` is the message; if
the parse result is not a dict, Python's attribute access on `.get`
raises, surfaced here as `lookupError`.  On an unmapped status `>= 400`
the bare `SynseError` (no argument, modelled as `.null`) is raised. -/
def wrap_and_raise_for_error (jsonLoads : String → Except String JVal)
    (response : HTTPResponse) (body : Option String) : WrapResult :=
  -- in the source the body fetch (`if body is None: body = await
  -- response.text()` with fallback to `response.reason`) happens before
  -- the status check, so `textConsumed` is `body.isNone` on every path
  -- response.raise_for_status(): raises iff status >= 400 (aiohttp)
  if response.status < 400 then
    ⟨.ok (), body.isNone⟩
  else
    match code_to_err response.status with
    | some kind =>
      match jsonLoads (effectiveBody response body) with
      | .error _ =>
        ⟨.error (.synse kind (.str ("error: " ++ effectiveBody response body))), body.isNone⟩
      | .ok data =>
        -- data.get('context'): AttributeError if data is not a dict
        match data with
        | .obj kvs => ⟨.error (.synse kind ((alookup kvs "context").getD .null)), body.isNone⟩
        | _ => ⟨.error (.lookupError "context"), body.isNone⟩
    | none => ⟨.error (.synse .synseError .null), body.isNone⟩

/-- The kind of `SynseError` raised, if any. -/
def kindOf : Except PyErr Unit → Option SynseErrKind
  | .error (.synse k _) => some k
  | _ => none

/-- The effective body parses to a dict or fails to parse (true of every
well-formed Synse error body); rules out Python's attribute error on
`data.get` for non-dict JSON. -/
def parsesToObjOrFails (jsonLoads : String → Except String JVal)
    (response : HTTPResponse) (body : Option String) : Prop :=
  match jsonLoads (effectiveBody response body) with
  | .ok (.obj _) => True
  | .ok _ => False
  | .error _ => True

instance (jl : String → Except String JVal) (r : HTTPResponse) (b : Option String) :
    Decidable (parsesToObjOrFails jl r b) := by
  unfold parsesToObjOrFails
  split <;> infer_instance

/-- A concrete `json.loads` stand-in that always fails to parse, used for
concrete evaluations. -/
def jsonLoadsFail : String → Except String JVal := fun _ => .error "invalid json"

/-- aiohttp `WSMsgType` values distinguished by synse/utils.py
`process_ws_response` (text, closed, error) plus the remaining kinds it
lumps into the unexpected branch. -/
inductive WSMsgType where
  | text
  | binary
  | ping
  | pong
  | close
  | closing
  | closed
  | error
  deriving DecidableEq

/-- An aiohttp `WSMessage`: its type, its payload (for a text frame,
`data` is the decoded result of `response.json()`; the external JSON
decode is a boundary), and its `extra` string. -/
structure WSMessage where
  type : WSMsgType
  data : JVal
  extra : String
  deriving DecidableEq

/-- The kind of the `SynseError` carried by a raised exception, if any. -/
def excKind {a : Type} : Except PyErr a → Option SynseErrKind
  | .error (.synse k _) => some k
  | _ => none

/-- The error message built by `process_ws_response` for an error event:
`f'{desc} [{status}]: {ctx}'` with `desc = data.get('description', '')`
and `ctx = data.get('context', 'no context available')`. -/
def wsErrMsg (d status : JVal) : String :=
  pyStr ((jget d "description").getD (.str "")) ++ " [" ++ pyStr status ++ "]: "
    ++ pyStr ((jget d "context").getD (.str "no context available"))

/-- synse/utils.py `process_ws_response(response)`.

A text frame whose `event` is `response/error` is classified by exact
code: 404 raises `NotFound`, 400 raises `InvalidInput`, anything else
(500 included) raises the generic `SynseError`, with message
`f'{desc} [{status}]: {ctx}'`; any other text frame is returned whole.
A closed frame and an error frame raise `SynseError`, as does any other
frame type.  Missing `event`/`data`/`http_code` keys make the Python
subscripts raise (KeyError/TypeError), modelled as `lookupError`. -/
def process_ws_response (response : WSMessage) : Except PyErr JVal :=
  match response.type with
  | .text =>
    match jget response.data "event" with
    | none => .error (.lookupError "event")
    | some ev =>
      if ev = .str "response/error" then
        match jget response.data "data" with
        | none => .error (.lookupError "data")
        | some d =>
          match jget d "http_code" with
          | none => .error (.lookupError "http_code")
          | some status =>
            if status = .num 404 then
              .error (.synse .notFound (.str (wsErrMsg d status)))
            else if status = .num 400 then
              .error (.synse .invalidInput (.str (wsErrMsg d status)))
            else
              .error (.synse .synseError (.str (wsErrMsg d status)))
      else .ok response.data
  | .closed =>
    .error (.synse .synseError (.str ("WebSocket connection closed: " ++ response.extra)))
  | .error =>
    .error (.synse .synseError
      (.str ("WebSocket error: " ++ pyStr response.data ++ " : " ++ response.extra)))
  | _ =>
    .error (.synse .synseError
      (.str ("Unexpected WebSocket response: " ++ pyStr response.data)))

/-- The WebSocket connection handle owned by a session: the frames queued
for `receive()` (in arrival order), the requests sent so far
(`send_str(json.dumps(req))` is modelled as recording the request
object), and an optional fault making the next `send_str` raise the
named native transport exception (e.g. aiohttp's surfacing of
`ConnectionResetError`). -/
structure WSConn where
  sendFault : Option String
  incoming : List WSMessage
  sent : List JVal
  deriving DecidableEq

/-- The state of a `WebsocketClientV3` instance: the connect target, the
`_connection` attribute (None until `connect`), and the `itertools.count`
position behind `_next_id`. -/
structure WSSession where
  host : String
  port : Nat
  connectUrl : String
  _connection : Option WSConn
  idCounter : Nat
  deriving DecidableEq

/-- synse/client.py `WebsocketClientV3.__init__(host, port=5000)`:
no connection yet, and the correlation counter starts at 0. -/
def websocketClientInit (host : String) (port : Nat) : WSSession :=
  { host := host
    port := port
    connectUrl := "ws://" ++ host ++ ":" ++ toString port ++ "/v3/connect"
    _connection := none
    idCounter := 0 }

/-- The message of the `RuntimeError` raised by the `connection` property
when `_connection` is None.  The source concatenates two adjacent string
literals, so "context" and "manager" run together with no space. -/
def notConnectedMsg : String :=
  "The WebSocket client has not connected. Use the client as a context"
    ++ "manager or directly invoke the \"connect\" method prior to use."

/-- synse/client.py `WebsocketClientV3.connection` property: the handle,
or a raised `RuntimeError` (not a `SynseError`) when never connected. -/
def connectionProperty (s : WSSession) : Except PyErr WSConn :=
  match s._connection with
  | none => .error (.runtimeError notConnectedMsg)
  | some ws => .ok ws

/-- synse/client.py `WebsocketClientV3._next_id`: `next(self._id_iter)`
under `self._id_lock`.  The critical section contains no suspension
point, so concurrent callers serialize; it is modelled as sequential
state passing. -/
def _next_id (s : WSSession) : Nat × WSSession :=
  (s.idCounter, { s with idCounter := s.idCounter + 1 })

/-- The request envelope built by `request`/`stream_request`:
`{'id': ..., 'event': ...}` with `data` added only when `if data:` —
Python truthiness, so None and empty containers are omitted. -/
def buildRequest (rid : Nat) (event : String) (data : Option JVal) : JVal :=
  match data with
  | some d =>
    if d.truthy then .obj [("id", .num rid), ("event", .str event), ("data", d)]
    else .obj [("id", .num rid), ("event", .str event)]
  | none => .obj [("id", .num rid), ("event", .str event)]

/-- synse/client.py `WebsocketClientV3.request(event, data=None)`.

`ws = self.connection` runs first, so an unconnected session raises the
`RuntimeError` before the id is drawn and before any send or receive.
The body has no try/except: a native transport exception from
`ws.send_str` propagates unwrapped.  `await ws.receive()` takes the next
queued frame, whatever its id; with no frame queued the await suspends
indefinitely, modelled as `none`. -/
def request (s : WSSession) (event : String) (data : Option JVal) :
    Option (Except PyErr JVal × WSSession) :=
  match s._connection with
  | none => some (.error (.runtimeError notConnectedMsg), s)
  | some ws =>
    let (rid, s1) := _next_id s
    match ws.sendFault with
    | some exc => some (.error (.transport exc), { s1 with _connection := some ws })
    | none =>
      let ws1 : WSConn := { ws with sent := ws.sent ++ [buildRequest rid event data] }
      match ws1.incoming with
      | [] => none
      | resp :: rest =>
        some (process_ws_response resp,
          { s1 with _connection := some { ws1 with incoming := rest } })

/-- How a fully-consumed streaming call ends: the generator raised, or no
further frame is queued and the next `receive()` suspends. -/
inductive StreamEnd where
  | raised : PyErr → StreamEnd
  | pending : StreamEnd
  deriving DecidableEq

/-- The unfolding of `stream_request`'s `while True` loop over the queued
frames: each processed frame is yielded until one raises, which ends the
generator with that exception; an empty queue leaves the next receive
pending.  Returns (yielded items, how the sequence ended, frames left
unconsumed on the connection). -/
def streamEvents : List WSMessage → List JVal × StreamEnd × List WSMessage
  | [] => ([], .pending, [])
  | f :: rest =>
    match process_ws_response f with
    | .ok v =>
      let r := streamEvents rest
      (v :: r.1, r.2.1, r.2.2)
    | .error e => ([], .raised e, rest)

/-- synse/client.py `WebsocketClientV3.stream_request(event, data=None)`,
observed by a consumer that keeps pulling until the generator ends.
As for `request`: the not-connected guard fires before any I/O, a native
send exception propagates unwrapped, and each loop iteration processes
the next queued frame. -/
def stream_request (s : WSSession) (event : String) (data : Option JVal) :
    Except PyErr (List JVal × StreamEnd) × WSSession :=
  match s._connection with
  | none => (.error (.runtimeError notConnectedMsg), s)
  | some ws =>
    let (rid, s1) := _next_id s
    match ws.sendFault with
    | some exc => (.error (.transport exc), { s1 with _connection := some ws })
    | none =>
      let ws1 : WSConn := { ws with sent := ws.sent ++ [buildRequest rid event data] }
      let r := streamEvents ws1.incoming
      (.ok (r.1, r.2.1), { s1 with _connection := some { ws1 with incoming := r.2.2 } })

/-- A connected session over the given queued frames, used for concrete
evaluations. -/
def demoConn (frames : List WSMessage) : WSConn := ⟨none, frames, []⟩

/-- A `WebsocketClientV3` that has connected and has the given frames
queued for receive. -/
def demoSession (frames : List WSMessage) : WSSession :=
  { websocketClientInit "localhost" 5000 with _connection := some (demoConn frames) }

/-- A normal reply frame carrying the given id. -/
def c2Frame (i : Int) : WSMessage :=
  ⟨.text, .obj [("id", .num i), ("event", .str "response/status"),
                ("data", .obj [("status", .str "ok")])], ""⟩

/-- A connected session whose next `send_str` raises the native
`ConnectionResetError`. -/
def faultySession : WSSession :=
  { websocketClientInit "localhost" 5000 with
      _connection := some ⟨some "ConnectionResetError", [], []⟩ }

/-- `N` successive `_next_id` draws on one session. -/
def genIds : Nat → WSSession → List Nat × WSSession
  | 0, s => ([], s)
  | n + 1, s =>
    let (i, s1) := _next_id s
    let r := genIds n s1
    (i :: r.1, r.2)

/-- A text frame that is a normal payload frame: its decoded message has
an `event` that is a string other than `response/error`. -/
def isNormalFrame (f : WSMessage) : Bool :=
  f.type == .text
    && match jget f.data "event" with
       | some (.str e) => e != "response/error"
       | _ => false

/-- A normal reading frame for the concrete streaming runs. -/
def c6Frame (i : Int) : WSMessage :=
  ⟨.text, .obj [("id", .num 0), ("event", .str "response/reading"),
                ("data", .obj [("value", .num i)])], ""⟩

/-- The three well-known timestamp-bearing field names of
synse/models.py `BaseResponse.__init__`. -/
def timestampKeys : List String := ["timestamp", "created", "updated"]

/-- The external `iso8601.parse_date`, modelled at its boundary: RFC3339
text parses to a structured date-time (tagged string); non-string input
makes the parser raise (`none`). -/
def iso_parse : JVal → Option JVal
  | .str s => some (.date s)
  | _ => none

/-- Python `hasattr(self, k)` over the instance's attribute list. -/
def hasAttr (attrs : List (String × JVal)) (k : String) : Bool :=
  (alookup attrs k).isSome

/-- Python `setattr(self, k, v)` for an attribute that already exists:
update the first binding of `k`. -/
def setAttr : List (String × JVal) → String → JVal → List (String × JVal)
  | [], _, _ => []
  | (k0, v0) :: rest, k, v =>
    if k0 = k then (k0, v) :: rest else (k0, v0) :: setAttr rest k v

/-- The `for k, v in self._data.items()` loop of `BaseResponse.__init__`:
keys the instance has an attribute for are assigned (timestamp-bearing
keys through `iso8601.parse_date`, whose failure aborts with the
parser's exception, modelled as `none`); all other keys are skipped. -/
def attr_loop : List (String × JVal) → List (String × JVal) → Option (List (String × JVal))
  | attrs, [] => some attrs
  | attrs, (k, v) :: rest =>
    if hasAttr attrs k then
      match (if timestampKeys.contains k then iso_parse v else some v) with
      | some v2 => attr_loop (setAttr attrs k v2) rest
      | none => none
    else attr_loop attrs rest

/-- The attribute set right before the `BaseResponse.__init__` loop runs,
for a response type whose subclass `__init__` pre-declares the fields
`declared` (each set to None before calling super): `_data` bound to the
payload and every declared field bound to the `None` sentinel. -/
def initAttrs (declared : List String) (data : List (String × JVal)) :
    List (String × JVal) :=
  ("_data", JVal.obj data) :: declared.map (fun f => (f, JVal.null))

/-- synse/models.py `BaseResponse.__init__(data)` body: loop the payload
items over the initial attribute set. -/
def base_response_init (declared : List String) (data : List (String × JVal)) :
    Option (List (String × JVal)) :=
  attr_loop (initAttrs declared data) data

/-- Constructing `response_class(item)`: `BaseResponse.__init__` iterates
`data.items()`, so a non-dict payload raises (`none`). -/
def mkInstance (declared : List String) (v : JVal) : Option (List (String × JVal)) :=
  match v with
  | .obj kvs => base_response_init declared kvs
  | _ => none

/-- What synse/models.py `make_response` produces: the raw decoded value
(no mapping), one typed instance, or a list of typed instances. -/
inductive MakeResult where
  | raw : JVal → MakeResult
  | one : List (String × JVal) → MakeResult
  | many : List (List (String × JVal)) → MakeResult
  deriving DecidableEq

/-- synse/models.py `make_response(response_class, response)`: `None`
passes the decoded value through, a list maps elementwise, anything else
is loaded into a single instance. -/
def make_response (response_class : Option (List String)) (response : JVal) :
    Option MakeResult :=
  match response_class with
  | none => some (.raw response)
  | some declared =>
    match response with
    | .arr items => (items.mapM (mkInstance declared)).map .many
    | r => (mkInstance declared r).map .one

/-- A payload key the instance has an attribute for: a declared field or
the `_data` attribute set by `BaseResponse.__init__` itself. -/
def declaredB (declared : List String) (k : String) : Bool :=
  k == "_data" || declared.contains k

/-- The concrete status payload for the mapper witness: two declared
fields plus one undeclared key. -/
def statusPayload : List (String × JVal) :=
  [("status", .str "ok"), ("timestamp", .str "2019-05-07T11:14:39Z"), ("extraKey", .num 1)]

/-- The typed instance the mapper builds from `statusPayload`. -/
def statusAttrs : List (String × JVal) :=
  [("_data", .obj statusPayload), ("status", .str "ok"),
   ("timestamp", .date "2019-05-07T11:14:39Z")]

/-- The aiohttp `ClientSession` owned by an `HTTPClientV3`; only its
closed flag is observable here. -/
structure HTTPSession where
  closed : Bool
  deriving DecidableEq

/-- The state of a synse/client.py `HTTPClientV3` instance: connect
target and its (possibly shared) client session. -/
structure HTTPClientV3 where
  host : String
  port : Nat
  session : HTTPSession
  deriving DecidableEq

/-- `HTTPClientV3.__init__(host, port=5000)`: a fresh, open session. -/
def httpClientInit (host : String) (port : Nat) : HTTPClientV3 :=
  { host := host, port := port, session := { closed := false } }

/-- One HTTP exchange as served by the remote end: status code, reason
phrase, the result of `await resp.text()`, the decoded `resp.json()`
body, and the decoded stream chunks (`json.loads(chunk)` for each line
of `resp.content`; the JSON decode is a boundary). -/
structure ServerReply where
  status : Nat
  reason : String
  text : Except String String
  jsonBody : JVal
  chunks : List JVal
  deriving DecidableEq

/-- synse/client.py `HTTPClientV3.make_request` against a target that
would serve `reply`.  aiohttp's `ClientSession.request` (external
dependency) raises `RuntimeError('Session is closed')` on a closed
session; `RuntimeError` is neither `aiohttp.ClientError` nor
`asyncio.TimeoutError`, so the method's `except` clause does not catch
it and it propagates unwrapped.  Otherwise the response is checked by
`wrap_and_raise_for_error` (with no pre-extracted body) and the decoded
JSON body is returned. -/
def HTTPClientV3.make_request (jsonLoads : String → Except String JVal)
    (c : HTTPClientV3) (reply : ServerReply) : Except PyErr JVal × HTTPClientV3 :=
  if c.session.closed then
    (.error (.runtimeError "Session is closed"), c)
  else
    match (wrap_and_raise_for_error jsonLoads
        ⟨reply.status, reply.text, reply.reason⟩ none).outcome with
    | .error e => (.error e, c)
    | .ok _ => (.ok reply.jsonBody, c)

/-- synse/client.py `HTTPClientV3.stream_request`, observed by a
consumer that drives the stream to completion (as `read_cache` does).
The source enters `async with self.session as session:`, so when the
generator finishes — normally or by raising — `ClientSession.__aexit__`
closes the client's own session.  On a failure status
`wrap_and_raise_for_error` is called with the pre-extracted
`resp.reason` as body; on success every content chunk is decoded and
yielded. -/
def HTTPClientV3.stream_request (jsonLoads : String → Except String JVal)
    (c : HTTPClientV3) (reply : ServerReply) :
    Except PyErr (List JVal) × HTTPClientV3 :=
  if c.session.closed then
    (.error (.runtimeError "Session is closed"), c)
  else
    match (wrap_and_raise_for_error jsonLoads
        ⟨reply.status, reply.text, reply.reason⟩ (some reply.reason)).outcome with
    | .error e => (.error e, { c with session := { closed := true } })
    | .ok _ => (.ok reply.chunks, { c with session := { closed := true } })

/-- A successful streamable reply used for the concrete C10 run. -/
def okReply : ServerReply :=
  ⟨200, "OK", .ok "body", .obj [("status", .str "ok")], [.obj [("value", .num 1)]]⟩

/-! The development above embeds the client; the theorems below settle
the specified claims against it. -/

/-- On a mapped failure status (400/404/500) with a body that parses to a
dict or fails to parse, the raised error has exactly the mapped kind. -/
theorem kindOf_mapped (jsonLoads : String → Except String JVal)
    (response : HTTPResponse) (body : Option String) (kind : SynseErrKind)
    (hge : 400 ≤ response.status)
    (hmap : code_to_err response.status = some kind)
    (hbody : parsesToObjOrFails jsonLoads response body) :
    kindOf (wrap_and_raise_for_error jsonLoads response body).outcome = some kind := by
  unfold wrap_and_raise_for_error
  rw [if_neg (by omega), hmap]
  unfold parsesToObjOrFails at hbody
  cases hj : jsonLoads (effectiveBody response body) with
  | error e => simp [hj, kindOf]
  | ok v =>
    rw [hj] at hbody
    cases v <;> simp_all [kindOf]

/-- On an unmapped failure status (>= 400 but none of 400/404/500) the
bare generic `SynseError` is raised. -/
theorem kindOf_unmapped (jsonLoads : String → Except String JVal)
    (response : HTTPResponse) (body : Option String)
    (hge : 400 ≤ response.status)
    (hmap : code_to_err response.status = none) :
    (wrap_and_raise_for_error jsonLoads response body).outcome
      = .error (.synse .synseError .null) := by
  unfold wrap_and_raise_for_error
  rw [if_neg (by omega), hmap]

/-- Below status 400 the classifier returns normally. -/
theorem wrap_ok_below_400 (jsonLoads : String → Except String JVal)
    (response : HTTPResponse) (body : Option String)
    (hlt : response.status < 400) :
    (wrap_and_raise_for_error jsonLoads response body).outcome = .ok () := by
  unfold wrap_and_raise_for_error
  rw [if_pos hlt]

/-- Claim C1 counterexample: the classifier at status 502 raises the bare
generic `SynseError`, not `ServerError` (the table maps only the exact
code 500), and at the non-2xx status 301 it raises nothing at all
(aiohttp's raise-for-status only fires at status >= 400). -/
theorem c1_counterexample :
    (kindOf (wrap_and_raise_for_error jsonLoadsFail ⟨502, .ok "oops", "Bad Gateway"⟩
        none).outcome = some .synseError
      ∧ kindOf (wrap_and_raise_for_error jsonLoadsFail ⟨502, .ok "oops", "Bad Gateway"⟩
        none).outcome ≠ some .serverError)
    ∧ (wrap_and_raise_for_error jsonLoadsFail ⟨301, .ok "moved", "Moved Permanently"⟩
        none).outcome = .ok () := by
  decide

/-- Claim C1 (amended): for every completed HTTP-style response checked by
`wrap_and_raise_for_error` whose error body parses to an object or fails
to parse: status 400 raises `InvalidInput`, 404 raises `NotFound`,
exactly 500 raises `ServerError`, every other status >= 400 (including
all codes above 500) raises the bare generic `SynseError`, and every
status below 400 (all 2xx, and also 3xx) raises nothing. -/
theorem c1_error_classification (jsonLoads : String → Except String JVal)
    (response : HTTPResponse) (body : Option String)
    (hbody : parsesToObjOrFails jsonLoads response body) :
    (response.status = 400 →
      kindOf (wrap_and_raise_for_error jsonLoads response body).outcome = some .invalidInput)
    ∧ (response.status = 404 →
      kindOf (wrap_and_raise_for_error jsonLoads response body).outcome = some .notFound)
    ∧ (response.status = 500 →
      kindOf (wrap_and_raise_for_error jsonLoads response body).outcome = some .serverError)
    ∧ (400 ≤ response.status → response.status ≠ 400 → response.status ≠ 404 →
      response.status ≠ 500 →
      (wrap_and_raise_for_error jsonLoads response body).outcome
        = .error (.synse .synseError .null))
    ∧ (response.status < 400 →
      (wrap_and_raise_for_error jsonLoads response body).outcome = .ok ()) := by
  refine ⟨fun h => ?_, fun h => ?_, fun h => ?_, fun h400 h1 h2 h3 => ?_, fun h => ?_⟩
  · exact kindOf_mapped jsonLoads response body _ (by omega) (by simp [code_to_err, h]) hbody
  · exact kindOf_mapped jsonLoads response body _ (by omega) (by simp [code_to_err, h]) hbody
  · exact kindOf_mapped jsonLoads response body _ (by omega) (by simp [code_to_err, h]) hbody
  · exact kindOf_unmapped jsonLoads response body h400 (by simp [code_to_err, h1, h2, h3])
  · exact wrap_ok_below_400 jsonLoads response body h

/-- Claim C1 witness: concrete instantiation at status 404 with an
unparseable body. -/
theorem c1_error_classification_witness :
    parsesToObjOrFails jsonLoadsFail ⟨404, .ok "nope", "Not Found"⟩ none
      ∧ kindOf (wrap_and_raise_for_error jsonLoadsFail ⟨404, .ok "nope", "Not Found"⟩
          none).outcome = some .notFound :=
  ⟨by decide,
   (c1_error_classification jsonLoadsFail ⟨404, .ok "nope", "Not Found"⟩ none
      (by decide)).2.1 rfl⟩

/-- Claim C5 counterexample: at status 200 with no pre-extracted body the
classifier returns normally, but it does consume the response body —
`await response.text()` runs unconditionally before the status check, so
`textConsumed` is `true`, refuting "without consuming the response
body". -/
theorem c5_counterexample :
    (wrap_and_raise_for_error jsonLoadsFail ⟨200, .ok "payload", "OK"⟩ none).outcome = .ok ()
    ∧ (wrap_and_raise_for_error jsonLoadsFail ⟨200, .ok "payload", "OK"⟩ none).textConsumed
        = true := by
  decide

/-- Claim C5 (amended): on a 2xx status with no pre-extracted body the
classifier returns normally without raising, but it does read the
response body: `response.text()` is awaited whenever the `body` argument
is absent, regardless of status (which is why streamed-response callers
must pass an explicit body). -/
theorem c5_success_returns_normally (jsonLoads : String → Except String JVal)
    (response : HTTPResponse)
    (hlo : 200 ≤ response.status) (hhi : response.status ≤ 299) :
    wrap_and_raise_for_error jsonLoads response none = ⟨.ok (), true⟩ := by
  unfold wrap_and_raise_for_error
  rw [if_pos (by omega)]
  rfl

/-- Claim C5 witness: concrete instantiation at status 200. -/
theorem c5_success_returns_normally_witness :
    wrap_and_raise_for_error jsonLoadsFail ⟨200, .ok "payload", "OK"⟩ none = ⟨.ok (), true⟩ :=
  c5_success_returns_normally jsonLoadsFail ⟨200, .ok "payload", "OK"⟩ (by decide) (by decide)

/-- Claim C7: for every decoded error-event frame on the WebSocket
connection, classification matches exact codes only: `http_code` 400
raises `InvalidInput`, 404 raises `NotFound`, and every other code —
500 included — raises the generic `SynseError`; `ServerError` is never
raised on this path. -/
theorem c7_ws_exact_code_classification (frame : WSMessage) (d : JVal) (c : Int)
    (htype : frame.type = .text)
    (hev : jget frame.data "event" = some (.str "response/error"))
    (hdata : jget frame.data "data" = some d)
    (hcode : jget d "http_code" = some (.num c)) :
    (c = 400 → excKind (process_ws_response frame) = some .invalidInput)
    ∧ (c = 404 → excKind (process_ws_response frame) = some .notFound)
    ∧ (c ≠ 400 → c ≠ 404 → excKind (process_ws_response frame) = some .synseError)
    ∧ excKind (process_ws_response frame) ≠ some .serverError := by
  have hp : process_ws_response frame
      = (if (JVal.num c) = .num 404 then
          .error (.synse .notFound (.str (wsErrMsg d (.num c))))
        else if (JVal.num c) = .num 400 then
          .error (.synse .invalidInput (.str (wsErrMsg d (.num c))))
        else
          .error (.synse .synseError (.str (wsErrMsg d (.num c))))) := by
    simp only [process_ws_response, htype, hev, hdata, hcode]
    simp
  refine ⟨fun h => ?_, fun h => ?_, fun h1 h2 => ?_, ?_⟩
  · subst h; simp [hp, excKind]
  · subst h; simp [hp, excKind]
  · simp [hp, excKind, h1, h2]
  · by_cases h4 : c = 404
    · subst h4; simp [hp, excKind]
    · by_cases h0 : c = 400
      · subst h0; simp [hp, excKind]
      · simp [hp, excKind, h0, h4]

/-- Claim C7 witness: a concrete error-event frame with `http_code` 500
raises the generic `SynseError`, not `ServerError`. -/
theorem c7_ws_exact_code_classification_witness :
    excKind (process_ws_response
      ⟨.text,
       .obj [("event", .str "response/error"),
             ("data", .obj [("http_code", .num 500), ("description", .str "whoops")])],
       ""⟩) = some .synseError :=
  (c7_ws_exact_code_classification
    ⟨.text,
     .obj [("event", .str "response/error"),
           ("data", .obj [("http_code", .num 500), ("description", .str "whoops")])],
     ""⟩
    (.obj [("http_code", .num 500), ("description", .str "whoops")]) 500
    rfl (by decide) (by decide) (by decide)).2.2.1 (by decide) (by decide)

/-- Claim C2 counterexample: two reply frames differing only in their id
field do not produce the same result — `request` returns the whole
processed message, id included, so the returned values differ in that
field. -/
theorem c2_counterexample :
    request (demoSession [c2Frame 0]) "request/status" none
      ≠ request (demoSession [c2Frame 1]) "request/status" none := by
  decide

/-- Claim C2 (amended): `request` returns the processed next frame
received on the connection, whatever that frame's id field is — no
comparison between the frame id and the request's correlation id is
performed, the frame is accepted regardless of its id value `v`, and the
returned message is the frame's whole payload (so two frames differing
only in id give results identical except in their id entry, not
literally equal results). -/
theorem c2_request_ignores_frame_id (s : WSSession) (ws : WSConn) (event : String)
    (data : Option JVal) (v : JVal) (base : List (String × JVal))
    (rest : List WSMessage) (extra e : String)
    (hconn : s._connection = some ws) (hfault : ws.sendFault = none)
    (hinc : ws.incoming = ⟨.text, .obj (("id", v) :: base), extra⟩ :: rest)
    (hev : alookup base "event" = some (.str e))
    (hne : e ≠ "response/error") :
    (request s event data).map Prod.fst = some (.ok (.obj (("id", v) :: base))) := by
  simp [request, hconn, _next_id, hfault, hinc, process_ws_response, jget, alookup, hev, hne]

/-- Claim C2 witness: concrete instantiation with a frame whose id (7)
differs from the correlation id the session will use (0). -/
theorem c2_request_ignores_frame_id_witness :
    (request (demoSession [c2Frame 7]) "request/status" none).map Prod.fst
      = some (.ok (.obj [("id", .num 7), ("event", .str "response/status"),
          ("data", .obj [("status", .str "ok")])])) :=
  c2_request_ignores_frame_id (demoSession [c2Frame 7]) (demoConn [c2Frame 7])
    "request/status" none (.num 7)
    [("event", .str "response/status"), ("data", .obj [("status", .str "ok")])]
    [] "" "response/status" rfl rfl rfl (by decide) (by decide)

/-- Claim C3 (code bug): `request` and `stream_request` have no
try/except around send and receive, so a native transport exception
raised by `ws.send_str` reaches the caller unwrapped — it is not a
`SynseError` — contradicting the methods' own docstrings ("Raises:
errors.SynseError: An instance of a SynseError, wrapping any other
error which may have occurred"). -/
theorem c3_native_send_exception_propagates :
    (request faultySession "request/status" none).map Prod.fst
        = some (.error (.transport "ConnectionResetError"))
    ∧ (∀ k m, (request faultySession "request/status" none).map Prod.fst
          ≠ some (.error (.synse k m)))
    ∧ (stream_request faultySession "request/status" none).1
        = .error (.transport "ConnectionResetError") := by
  have h1 : (request faultySession "request/status" none).map Prod.fst
      = some (.error (.transport "ConnectionResetError")) := by decide
  refine ⟨h1, ?_, by decide⟩
  intro k m hsyn
  rw [h1] at hsyn
  exact absurd (Option.some.inj hsyn) (by simp)

/-- `genIds` hands out `counter, counter+1, ...` and advances the
counter by `n`. -/
theorem genIds_range (n : Nat) (s : WSSession) :
    (genIds n s).1 = List.range' s.idCounter n
    ∧ (genIds n s).2.idCounter = s.idCounter + n := by
  induction n generalizing s with
  | zero => simp [genIds]
  | succ n ih =>
    simp only [genIds, _next_id, List.range']
    refine ⟨?_, ?_⟩
    · simp [(ih _).1]
    · simp [(ih _).2]
      omega

/-- Claim C4: for every N, N calls to `_next_id` on a fresh session
return exactly `[0, 1, ..., N-1]` — the first call returns 0, each
subsequent call returns the previous value plus one, with no duplicates
and no gaps — and the counter ends at N, never reset (the asyncio lock
serializes concurrent callers; the critical section has no suspension
point, so the calls compose sequentially). -/
theorem c4_correlation_ids (n : Nat) (host : String) (port : Nat) :
    (genIds n (websocketClientInit host port)).1 = List.range n
    ∧ ((genIds n (websocketClientInit host port)).1).Nodup
    ∧ (genIds n (websocketClientInit host port)).2.idCounter = n := by
  have h := genIds_range n (websocketClientInit host port)
  have h0 : (websocketClientInit host port).idCounter = 0 := rfl
  rw [h0] at h
  refine ⟨?_, ?_, ?_⟩
  · rw [h.1, List.range_eq_range']
  · rw [h.1, ← List.range_eq_range']
    exact List.nodup_range n
  · rw [h.2]
    omega

/-- Claim C8: every operation of the WebSocket session that requires a
live connection (`request`, `stream_request`, and the `connection`
property they consult first), invoked on a session that has never
connected, raises the not-connected `RuntimeError` — a
programming-contract error that is not a `SynseError` — and performs no
network I/O: the session state is returned unchanged (no correlation id
drawn, nothing sent, nothing received). -/
theorem c8_not_connected_guard (s : WSSession) (event : String) (data : Option JVal)
    (h : s._connection = none) :
    request s event data = some (.error (.runtimeError notConnectedMsg), s)
    ∧ stream_request s event data = (.error (.runtimeError notConnectedMsg), s)
    ∧ connectionProperty s = .error (.runtimeError notConnectedMsg)
    ∧ (∀ k m, (PyErr.runtimeError notConnectedMsg) ≠ .synse k m) := by
  refine ⟨?_, ?_, ?_, fun k m hkm => PyErr.noConfusion hkm⟩
  · simp [request, h]
  · simp [stream_request, h]
  · simp [connectionProperty, h]

/-- Claim C8 witness: concrete never-connected client. -/
theorem c8_not_connected_guard_witness :
    request (websocketClientInit "localhost" 5000) "request/status" none
      = some (.error (.runtimeError notConnectedMsg),
              websocketClientInit "localhost" 5000) :=
  (c8_not_connected_guard (websocketClientInit "localhost" 5000)
    "request/status" none rfl).1

/-- Processing a normal payload frame returns its whole message. -/
theorem process_ws_response_normal (f : WSMessage) (h : isNormalFrame f = true) :
    process_ws_response f = .ok f.data := by
  unfold isNormalFrame at h
  rw [Bool.and_eq_true] at h
  obtain ⟨ht, hev⟩ := h
  have ht' : f.type = .text := by simpa using ht
  unfold process_ws_response
  rw [ht']
  cases hj : jget f.data "event" with
  | none => rw [hj] at hev; simp at hev
  | some ev =>
    rw [hj] at hev
    cases ev <;> simp_all

/-- Driving the generator over normal payload frames followed by a
connection-close signal yields every payload in order and then raises
the `SynseError` that `process_ws_response` builds for closed frames. -/
theorem streamEvents_normal_closed (fs : List WSMessage) (extra : String)
    (h : ∀ f ∈ fs, isNormalFrame f = true) :
    streamEvents (fs ++ [⟨.closed, .null, extra⟩])
      = (fs.map (fun f => f.data),
         .raised (.synse .synseError (.str ("WebSocket connection closed: " ++ extra))),
         []) := by
  induction fs with
  | nil => simp [streamEvents, process_ws_response]
  | cons f rest ih =>
    have h1 := process_ws_response_normal f (h f (by simp))
    simp [streamEvents, h1, ih (fun g hg => h g (by simp [hg]))]

/-- Claim C6 counterexample: a streaming call over three payload frames
followed by a connection-close signal yields the three decoded items in
order and then RAISES `SynseError` ("WebSocket connection closed") — the
sequence does not terminate without raising: `process_ws_response`
raises on the closed frame, and the source's `while True` loop has no
non-raising exit. -/
theorem c6_counterexample :
    (stream_request (demoSession [c6Frame 1, c6Frame 2, c6Frame 3, ⟨.closed, .null, ""⟩])
        "request/read_stream" none).1
      = .ok ([(c6Frame 1).data, (c6Frame 2).data, (c6Frame 3).data],
             .raised (.synse .synseError (.str ("WebSocket connection closed: " ++ "")))) := by
  decide

/-- Claim C6 (amended): for every streaming call on a connected session
whose frame sequence is finitely many normal payload frames (no error
frame interleaved) followed by a connection-close signal, the produced
sequence yields exactly one decoded item per payload frame, in order,
and then ends by raising the generic `SynseError` built for the close
signal (not by terminating silently — the loop only ends by raising or
by the consumer abandoning it). -/
theorem c6_stream_yields_then_raises (s : WSSession) (ws : WSConn)
    (event : String) (data : Option JVal) (fs : List WSMessage) (extra : String)
    (hconn : s._connection = some ws) (hfault : ws.sendFault = none)
    (hinc : ws.incoming = fs ++ [⟨.closed, .null, extra⟩])
    (hnorm : ∀ f ∈ fs, isNormalFrame f = true) :
    (stream_request s event data).1
      = .ok (fs.map (fun f => f.data),
             .raised (.synse .synseError
               (.str ("WebSocket connection closed: " ++ extra)))) := by
  simp [stream_request, hconn, _next_id, hfault, hinc,
        streamEvents_normal_closed fs extra hnorm]

/-- Claim C6 witness: concrete one-frame stream ending in a close
signal. -/
theorem c6_stream_yields_then_raises_witness :
    (stream_request (demoSession [c6Frame 7, ⟨.closed, .null, "going away"⟩])
        "request/read_stream" none).1
      = .ok ([(c6Frame 7).data],
             .raised (.synse .synseError
               (.str ("WebSocket connection closed: " ++ "going away")))) :=
  c6_stream_yields_then_raises
    (demoSession [c6Frame 7, ⟨.closed, .null, "going away"⟩])
    (demoConn [c6Frame 7, ⟨.closed, .null, "going away"⟩])
    "request/read_stream" none [c6Frame 7] "going away" rfl rfl rfl (by decide)

/-- `setAttr` never adds or removes keys. -/
theorem hasAttr_setAttr (attrs : List (String × JVal)) (k k' : String) (v : JVal) :
    hasAttr (setAttr attrs k v) k' = hasAttr attrs k' := by
  induction attrs with
  | nil => simp [setAttr]
  | cons kv rest ih =>
    obtain ⟨k0, v0⟩ := kv
    by_cases h0 : k0 = k
    · subst h0
      by_cases h1 : k0 = k'
      · subst h1; simp [setAttr, hasAttr, alookup]
      · simp [setAttr, hasAttr, alookup, h1]
    · by_cases h1 : k0 = k'
      · subst h1; simp [setAttr, hasAttr, alookup, h0]
      · simp only [setAttr, if_neg h0, hasAttr, alookup, if_neg h1] at ih ⊢
        exact ih

/-- Updating a present key makes lookup return the new value. -/
theorem alookup_setAttr_self (attrs : List (String × JVal)) (k : String) (v : JVal)
    (h : hasAttr attrs k = true) :
    alookup (setAttr attrs k v) k = some v := by
  induction attrs with
  | nil => simp [hasAttr, alookup] at h
  | cons kv rest ih =>
    obtain ⟨k0, v0⟩ := kv
    by_cases h0 : k0 = k
    · subst h0; simp [setAttr, alookup]
    · simp [hasAttr, alookup, h0] at h
      simp [setAttr, alookup, h0, ih h]

/-- Updating one key leaves every other key's lookup unchanged. -/
theorem alookup_setAttr_other (attrs : List (String × JVal)) (k k' : String) (v : JVal)
    (h : k' ≠ k) :
    alookup (setAttr attrs k v) k' = alookup attrs k' := by
  induction attrs with
  | nil => simp [setAttr]
  | cons kv rest ih =>
    obtain ⟨k0, v0⟩ := kv
    by_cases h0 : k0 = k
    · subst h0
      have hne : k0 ≠ k' := fun hh => h hh.symm
      simp [setAttr, alookup, hne]
    · by_cases h1 : k0 = k'
      · subst h1; simp [setAttr, alookup, h0]
      · simp [setAttr, alookup, h0, h1, ih]

/-- The attribute loop never adds or removes keys. -/
theorem hasAttr_attr_loop (data : List (String × JVal)) :
    ∀ attrs res k, attr_loop attrs data = some res →
      hasAttr res k = hasAttr attrs k := by
  induction data with
  | nil =>
    intro attrs res k h
    simp [attr_loop] at h
    subst h; rfl
  | cons kv rest ih =>
    intro attrs res k h
    obtain ⟨k0, v0⟩ := kv
    rw [attr_loop] at h
    by_cases h0 : hasAttr attrs k0
    · rw [if_pos h0] at h
      cases hv : (if timestampKeys.contains k0 then iso_parse v0 else some v0) with
      | none =>
        rw [hv] at h
        exact Option.noConfusion h
      | some v2 =>
        rw [hv] at h
        rw [ih _ _ _ h, hasAttr_setAttr]
    · rw [if_neg h0] at h
      exact ih _ _ _ h

/-- A key not occurring in the payload keeps its initial binding through
the attribute loop. -/
theorem alookup_attr_loop_of_not_mem (data : List (String × JVal)) :
    ∀ attrs res k, k ∉ data.map Prod.fst → attr_loop attrs data = some res →
      alookup res k = alookup attrs k := by
  induction data with
  | nil =>
    intro attrs res k _ h
    rw [attr_loop] at h
    cases h
    rfl
  | cons kv rest ih =>
    intro attrs res k hk h
    obtain ⟨k0, v0⟩ := kv
    rw [attr_loop] at h
    simp only [List.map_cons, List.mem_cons, not_or] at hk
    by_cases h0 : hasAttr attrs k0
    · rw [if_pos h0] at h
      cases hv : (if timestampKeys.contains k0 then iso_parse v0 else some v0) with
      | none =>
        rw [hv] at h
        exact Option.noConfusion h
      | some v2 =>
        rw [hv] at h
        rw [ih _ _ _ hk.2 h, alookup_setAttr_other _ _ _ _ hk.1]
    · rw [if_neg h0] at h
      exact ih _ _ _ hk.2 h

/-- A declared key occurring in a (unique-key) payload ends up bound to
its payload value, run through the timestamp parser when it is one of
the three timestamp-bearing keys. -/
theorem alookup_attr_loop_mem (data : List (String × JVal)) :
    ∀ attrs res k v, (data.map Prod.fst).Nodup → (k, v) ∈ data →
      hasAttr attrs k = true → attr_loop attrs data = some res →
      alookup res k = (if timestampKeys.contains k then iso_parse v else some v) := by
  induction data with
  | nil =>
    intro _ _ _ _ _ hmem _ _
    simp at hmem
  | cons kv rest ih =>
    intro attrs res k v hnd hmem hattr h
    obtain ⟨k0, v0⟩ := kv
    rw [attr_loop] at h
    simp only [List.map_cons, List.nodup_cons] at hnd
    rcases List.mem_cons.mp hmem with heq | hmem'
    · injection heq with hk hv'
      subst hk
      subst hv'
      rw [if_pos hattr] at h
      cases hv : (if timestampKeys.contains k then iso_parse v else some v) with
      | none =>
        rw [hv] at h
        exact Option.noConfusion h
      | some v2 =>
        rw [hv] at h
        rw [alookup_attr_loop_of_not_mem rest _ _ _ hnd.1 h,
            alookup_setAttr_self _ _ _ hattr]
    · have hkrest : k ∈ rest.map Prod.fst := List.mem_map.mpr ⟨(k, v), hmem', rfl⟩
      have hkk0 : k0 ≠ k := fun hh => hnd.1 (hh ▸ hkrest)
      by_cases h0 : hasAttr attrs k0
      · rw [if_pos h0] at h
        cases hv0 : (if timestampKeys.contains k0 then iso_parse v0 else some v0) with
        | none =>
          rw [hv0] at h
          exact Option.noConfusion h
        | some w =>
          rw [hv0] at h
          exact ih _ _ _ _ hnd.2 hmem'
            (by rw [hasAttr_setAttr]; exact hattr) h
      · rw [if_neg h0] at h
        exact ih _ _ _ _ hnd.2 hmem' hattr h

/-- Dropping from the payload every key the instance has no attribute
for does not change the outcome of the attribute loop at all — such keys
are ignored without error. -/
theorem attr_loop_filter (data : List (String × JVal)) :
    ∀ attrs,
      attr_loop attrs (data.filter (fun kv => hasAttr attrs kv.1))
        = attr_loop attrs data := by
  induction data with
  | nil => intro attrs; rfl
  | cons kv rest ih =>
    intro attrs
    obtain ⟨k0, v0⟩ := kv
    rw [List.filter_cons]
    by_cases h0 : hasAttr attrs k0
    · simp only [h0, if_true]
      rw [attr_loop, attr_loop, if_pos h0, if_pos h0]
      cases hv : (if timestampKeys.contains k0 then iso_parse v0 else some v0) with
      | none => rfl
      | some v2 =>
        have hcongr : rest.filter (fun kv => hasAttr attrs kv.1)
            = rest.filter (fun kv => hasAttr (setAttr attrs k0 v2) kv.1) :=
          (List.filter_congr (fun x _ => by rw [hasAttr_setAttr])).symm
        rw [hcongr]
        exact ih (setAttr attrs k0 v2)
    · simp only [h0, if_false]
      rw [attr_loop, if_neg h0]
      exact ih attrs

/-- Lookup over the constant-`None` field list built by a subclass
`__init__`. -/
theorem alookup_const_map (declared : List String) (k : String) :
    alookup (declared.map (fun f => (f, JVal.null))) k
      = if declared.contains k then some JVal.null else none := by
  induction declared with
  | nil => simp [alookup]
  | cons d rest ih =>
    by_cases h : d = k
    · subst h
      simp [alookup]
    · simp only [List.map_cons, alookup, if_neg h, ih, List.contains_cons]
      have : (k == d) = false := by
        apply beq_eq_false_iff_ne.mpr
        exact fun hh => h hh.symm
      rw [this]
      simp

/-- The attribute set of a freshly initialized instance is exactly
`_data` plus the declared fields. -/
theorem hasAttr_init (declared : List String) (data : List (String × JVal)) (k : String) :
    hasAttr (initAttrs declared data) k = declaredB declared k := by
  rw [initAttrs]
  by_cases h : k = "_data"
  · subst h
    simp [hasAttr, alookup, declaredB]
  · have h' : "_data" ≠ k := fun hh => h hh.symm
    simp only [hasAttr, alookup, if_neg h', alookup_const_map, declaredB]
    have : (k == "_data") = false := by simp [h]
    rw [this]
    by_cases hd : k ∈ declared <;> simp [hd]

/-- `mapM` over `Option` succeeds with a list of the same length. -/
theorem mapM_some_length {α β : Type} (f : α → Option β) :
    ∀ (l : List α) (r : List β), l.mapM f = some r → r.length = l.length := by
  intro l
  induction l with
  | nil =>
    intro r h
    simp only [List.mapM_nil] at h
    cases h
    rfl
  | cons a as ih =>
    intro r h
    rw [List.mapM_cons] at h
    cases hfa : f a with
    | none => rw [hfa] at h; simp at h
    | some b =>
      rw [hfa] at h
      cases hrest : as.mapM f with
      | none => rw [hrest] at h; simp at h
      | some bs =>
        rw [hrest] at h
        simp only [Option.bind_some, Option.pure_def] at h
        cases h
        simp [ih bs hrest]

/-- `mapM` over `Option` converts elementwise, preserving order. -/
theorem mapM_some_get {α β : Type} (f : α → Option β) :
    ∀ (l : List α) (r : List β), l.mapM f = some r →
      ∀ i (h1 : i < l.length) (h2 : i < r.length),
        f (l.get ⟨i, h1⟩) = some (r.get ⟨i, h2⟩) := by
  intro l
  induction l with
  | nil =>
    intro r h i h1 h2
    simp at h1
  | cons a as ih =>
    intro r h i h1 h2
    rw [List.mapM_cons] at h
    cases hfa : f a with
    | none => rw [hfa] at h; simp at h
    | some b =>
      rw [hfa] at h
      cases hrest : as.mapM f with
      | none => rw [hrest] at h; simp at h
      | some bs =>
        rw [hrest] at h
        simp only [Option.bind_some, Option.pure_def] at h
        cases h
        cases i with
        | zero => simpa using hfa
        | succ j =>
          exact ih bs hrest j (by simpa using h1) (by simpa using h2)

/-- Claim C9: the typed response mapper `make_response` satisfies: with
the "no mapping" marker (`None`) the decoded value is returned
unchanged; with a list input it returns a list of the same length and
order whose elements are each converted to the target type; with a
single object it returns one typed instance in which only the fields
pre-declared by the type (plus the base class's own `_data` attribute)
are populated, values under declared keys among `timestamp`, `created`,
`updated` are parsed from RFC3339 text into a date-time value, every
other declared field is assigned verbatim when present in the payload
and otherwise remains at the `None` sentinel, and undeclared payload
keys are ignored without error (dropping them from the loop changes
nothing). -/
theorem c9_typed_response_mapper :
    (∀ r, make_response none r = some (.raw r))
    ∧ (∀ declared items l, items.mapM (mkInstance declared) = some l →
        make_response (some declared) (.arr items) = some (.many l)
        ∧ l.length = items.length
        ∧ ∀ i (h1 : i < items.length) (h2 : i < l.length),
            mkInstance declared (items.get ⟨i, h1⟩) = some (l.get ⟨i, h2⟩))
    ∧ (∀ declared kvs attrs, (kvs.map Prod.fst).Nodup →
        base_response_init declared kvs = some attrs →
        make_response (some declared) (.obj kvs) = some (.one attrs)
        ∧ (∀ k v, (k, v) ∈ kvs → k ∈ declared →
            alookup attrs k = if timestampKeys.contains k then iso_parse v else some v)
        ∧ (∀ k t, (k, JVal.str t) ∈ kvs → k ∈ declared →
            timestampKeys.contains k = true → alookup attrs k = some (.date t))
        ∧ (∀ k, k ∈ declared → k ≠ "_data" → k ∉ kvs.map Prod.fst →
            alookup attrs k = some .null)
        ∧ (∀ k, k ∉ declared → k ≠ "_data" → alookup attrs k = none))
    ∧ (∀ declared kvs,
        attr_loop (initAttrs declared kvs)
            (kvs.filter (fun kv => declaredB declared kv.1))
          = base_response_init declared kvs) := by
  refine ⟨fun r => rfl, fun declared items l hm => ⟨?_, ?_, ?_⟩,
    fun declared kvs attrs hnd hinit => ⟨?_, ?_, ?_, ?_, ?_⟩, fun declared kvs => ?_⟩
  · show (items.mapM (mkInstance declared)).map MakeResult.many = some (.many l)
    rw [hm]
    rfl
  · exact mapM_some_length _ items l hm
  · exact mapM_some_get _ items l hm
  · simp [make_response, mkInstance, hinit]
  · intro k v hmem hk
    refine alookup_attr_loop_mem kvs _ _ _ _ hnd hmem ?_ hinit
    simp [hasAttr_init, declaredB, hk]
  · intro k t hmem hk hts
    have h := alookup_attr_loop_mem kvs _ _ _ _ hnd hmem
      (by simp [hasAttr_init, declaredB, hk]) hinit
    rw [if_pos hts] at h
    exact h
  · intro k hk hkd hkm
    rw [alookup_attr_loop_of_not_mem kvs _ _ _ hkm hinit]
    rw [initAttrs]
    have h' : "_data" ≠ k := fun hh => hkd hh.symm
    simp only [alookup, if_neg h', alookup_const_map]
    simp [hk]
  · intro k hk hkd
    have hf : hasAttr attrs k = false := by
      rw [hasAttr_attr_loop kvs _ _ _ hinit, hasAttr_init, declaredB]
      simp [hkd, hk]
    cases ha : alookup attrs k with
    | none => rfl
    | some w =>
      rw [hasAttr, ha] at hf
      simp at hf
  · rw [base_response_init]
    have hcongr : kvs.filter (fun kv => declaredB declared kv.1)
        = kvs.filter (fun kv => hasAttr (initAttrs declared kvs) kv.1) :=
      List.filter_congr (fun x _ => by rw [hasAttr_init])
    rw [hcongr]
    exact attr_loop_filter kvs (initAttrs declared kvs)

/-- Claim C9 witness: concrete mapping of a status payload — declared
field copied verbatim, declared timestamp parsed, undeclared key
ignored; plus the no-mapping passthrough on a plain list. -/
theorem c9_typed_response_mapper_witness :
    make_response (some ["status", "timestamp"]) (.obj statusPayload)
        = some (.one statusAttrs)
    ∧ alookup statusAttrs "status" = some (.str "ok")
    ∧ alookup statusAttrs "timestamp" = some (.date "2019-05-07T11:14:39Z")
    ∧ alookup statusAttrs "extraKey" = none
    ∧ make_response none (.arr [.str "a", .str "b", .str "c"])
        = some (.raw (.arr [.str "a", .str "b", .str "c"])) := by
  obtain ⟨h1, h2, h3, h4⟩ := c9_typed_response_mapper
  obtain ⟨g1, g2, g3, g4, g5⟩ :=
    h3 ["status", "timestamp"] statusPayload statusAttrs (by decide) (by decide)
  exact ⟨g1,
    g2 "status" (.str "ok") (by decide) (by decide),
    g3 "timestamp" "2019-05-07T11:14:39Z" (by decide) (by decide) (by decide),
    g5 "extraKey" (by decide) (by decide),
    h1 (.arr [.str "a", .str "b", .str "c"])⟩

/-- Claim C10 counterexample: after one fully-consumed streamed call the
session is closed and the next `make_request` does fail — but with the
session-closed `RuntimeError` propagating unwrapped (it carries no
`SynseError` kind), not with `SynseError` as claimed. -/
theorem c10_counterexample :
    ((HTTPClientV3.stream_request jsonLoadsFail (httpClientInit "localhost" 5000)
        okReply).2).session.closed = true
    ∧ (HTTPClientV3.make_request jsonLoadsFail
        ((HTTPClientV3.stream_request jsonLoadsFail (httpClientInit "localhost" 5000)
          okReply).2) okReply).1
        = .error (.runtimeError "Session is closed")
    ∧ excKind (HTTPClientV3.make_request jsonLoadsFail
        ((HTTPClientV3.stream_request jsonLoadsFail (httpClientInit "localhost" 5000)
          okReply).2) okReply).1
        = none := by
  decide

/-- Claim C10 (amended): consuming the HTTP client's `stream_request`
generator (as `read_cache` does) closes the client's underlying session,
because the session itself is used as the context manager; consequently
every subsequent operation on the same client instance fails rather than
succeeding — but with aiohttp's session-closed `RuntimeError`
propagating unwrapped (RuntimeError is not among the caught transport
exception types, so it is not converted to `SynseError`); one streamed
call still renders the client unusable for further requests. -/
theorem c10_stream_closes_session (jsonLoads jsonLoads2 : String → Except String JVal)
    (c : HTTPClientV3) (reply reply2 : ServerReply)
    (hopen : c.session.closed = false) :
    ((HTTPClientV3.stream_request jsonLoads c reply).2).session.closed = true
    ∧ (HTTPClientV3.make_request jsonLoads2
        ((HTTPClientV3.stream_request jsonLoads c reply).2) reply2).1
        = .error (.runtimeError "Session is closed")
    ∧ excKind (HTTPClientV3.make_request jsonLoads2
        ((HTTPClientV3.stream_request jsonLoads c reply).2) reply2).1 = none := by
  have h2 : ((HTTPClientV3.stream_request jsonLoads c reply).2).session.closed = true := by
    rw [HTTPClientV3.stream_request, if_neg (by simp [hopen])]
    cases hw : (wrap_and_raise_for_error jsonLoads
        ⟨reply.status, reply.text, reply.reason⟩ (some reply.reason)).outcome <;> simp
  refine ⟨h2, ?_, ?_⟩
  · rw [HTTPClientV3.make_request, if_pos h2]
  · rw [HTTPClientV3.make_request, if_pos h2]
    rfl

/-- Claim C10 witness: concrete fresh client. -/
theorem c10_stream_closes_session_witness :
    ((HTTPClientV3.stream_request jsonLoadsFail (httpClientInit "localhost" 5000)
        okReply).2).session.closed = true
    ∧ (HTTPClientV3.make_request jsonLoadsFail
        ((HTTPClientV3.stream_request jsonLoadsFail (httpClientInit "localhost" 5000)
          okReply).2) okReply).1
        = .error (.runtimeError "Session is closed") :=
  ⟨(c10_stream_closes_session jsonLoadsFail jsonLoadsFail
      (httpClientInit "localhost" 5000) okReply okReply rfl).1,
   (c10_stream_closes_session jsonLoadsFail jsonLoadsFail
      (httpClientInit "localhost" 5000) okReply okReply rfl).2.1⟩
